import Mathlib

/-!
Shallow embedding of `custom_components/wundasmart/climate.py` (the latest,
bit-flag based revision, which the design notes mark as authoritative).

Dictionary values arriving from the coordinator are modelled by small inductive
types that record how Python's `float(...)` / `int(...)` treat them: absent
(key missing, or the value `None` guarded by `is not None`), a value that
parses to a number, or a malformed string on which parsing raises.
Temperatures and humidities are rationals (device values are finite decimals).
-/

namespace Wundasmart

/-- A dictionary value as consumed by Python `float(...)`: absent, a numeric
value or numeric string parsing to the rational `q`, or a malformed string on
which `float` raises `ValueError`. -/
inductive FloatVal where
  | absent : FloatVal
  | num : ℚ → FloatVal
  | bad : String → FloatVal
deriving DecidableEq

/-- A dictionary value as consumed by Python `int(...)`: absent, a value
parsing to the integer `n`, or a malformed string on which `int` raises. -/
inductive IntVal where
  | absent : IntVal
  | num : ℤ → IntVal
  | bad : String → IntVal
deriving DecidableEq

/-- Result of Python `float(v)` under the `try`/`except (ValueError, TypeError)`
pattern used throughout `climate.py`: `some q` on success, `none` on a raise. -/
def parseFloatVal : FloatVal → Option ℚ
  | .num q => some q
  | _ => none

/-- Result of Python `int(v)` under the same guarded pattern. -/
def parseIntVal : IntVal → Option ℤ
  | .num n => some n
  | _ => none

/-- Fields of a device's `sensor_state` dictionary read by `climate.py`. -/
structure SensorState where
  temp : FloatVal
  rh : FloatVal
  t_lo : FloatVal
  t_norm : FloatVal
  t_hi : FloatVal
deriving DecidableEq

/-- Fields of a device's `state` dictionary read by `climate.py`.  Room
devices carry `temp`, `temp_pre` and the preset temperatures; TRV devices
carry `room_id` and `vtemp`.  A single record covers both, with unread keys
held at `absent`, mirroring the untyped dictionaries of the source. -/
structure DevState where
  temp : FloatVal
  temp_pre : IntVal
  t_lo : FloatVal
  t_norm : FloatVal
  t_hi : FloatVal
  room_id : IntVal
  vtemp : FloatVal
deriving DecidableEq

/-- One entry of `coordinator.data`: a device with its `state` and
`sensor_state` sub-dictionaries. -/
structure DevRec where
  state : DevState
  sensor_state : SensorState
deriving DecidableEq

/-- The empty device dictionary `{}`, the default of `coordinator.data.get`. -/
def emptyDev : DevRec :=
  { state := { temp := .absent, temp_pre := .absent, t_lo := .absent, t_norm := .absent,
               t_hi := .absent, room_id := .absent, vtemp := .absent },
    sensor_state := { temp := .absent, rh := .absent, t_lo := .absent, t_norm := .absent,
                      t_hi := .absent } }

/-- Home Assistant HVAC modes (the values `climate.py` can receive or set). -/
inductive HVACMode where
  | off : HVACMode
  | heat : HVACMode
  | auto : HVACMode
  | cool : HVACMode
  | dry : HVACMode
  | fan_only : HVACMode
  | heat_cool : HVACMode
deriving DecidableEq

/-- Home Assistant HVAC actions used by `climate.py`. -/
inductive HVACAction where
  | off : HVACAction
  | heating : HVACAction
  | preheating : HVACAction
  | idle : HVACAction
deriving DecidableEq

/-- climate.py lines 184-188: the hvac mode decoded from the `temp_pre` flag
word; `0x10 ||| 0x4 = 0x14` and `0x10 ||| 0x80 = 0x90` are written as the
combined masks.  Python's `&` on arbitrary ints is `Int.land`. -/
def hvacModeOf (flags : ℤ) : HVACMode :=
  if Int.land flags 0x14 = 0x14 then HVACMode.off
  else if Int.land flags 0x90 = 0x10 then HVACMode.heat
  else HVACMode.auto

/-- climate.py lines 189-193: the hvac action decoded from the `temp_pre` flag
word; `0x80 ||| 0x20 = 0xA0`.  The bare `flags & 0x20` truthiness test is
written as a non-zero test. -/
def hvacActionOf (flags : ℤ) : HVACAction :=
  if Int.land flags 0xA0 = 0xA0 then HVACAction.preheating
  else if Int.land flags 0x20 ≠ 0 then HVACAction.heating
  else HVACAction.off

/-- The derived climate view held on the entity: the `_attr_*` fields that
`__update_state` writes. -/
structure DerivedView where
  current_temperature : Option ℚ
  current_humidity : Option ℚ
  target_temperature : Option ℚ
  hvac_mode : HVACMode
  hvac_action : Option HVACAction
deriving DecidableEq

/-- The initial `_attr_*` values from `Device.__init__` (lines 100-103);
`_attr_hvac_action` starts at the framework default `None`. -/
def initView : DerivedView :=
  { current_temperature := none, current_humidity := none, target_temperature := none,
    hvac_mode := HVACMode.auto, hvac_action := none }

/-- climate.py lines 120-127, `Device.__trvs`: the devices in the TRV id range
whose `state.room_id` is an int or digit string and satisfies
`int(room_id) + MIN_ROOM_ID == wunda_id`.  The constants `MIN_TRV_ID`,
`MAX_TRV_ID` and `MIN_ROOM_ID` live in the integration's `const` module, which
is not among the sources; modelled from the spec: "a fixed base" and an id
range, taken here as parameters. -/
def trvs (data : ℤ → DevRec) (minTrv maxTrv : ℕ) (minRoom wundaId : ℤ) : List DevRec :=
  ((List.range' minTrv (maxTrv + 1 - minTrv)).map fun x => data (x : ℤ)).filter fun trv =>
    match trv.state.room_id with
    | .num n => decide (n + minRoom = wundaId)
    | _ => false

/-- climate.py lines 129-152, `Device.__set_current_temperature`: use the room
sensor's `temp` when present (on a parse failure, warn and return, keeping the
previous value); otherwise average the TRV `vtemp` values that parse to a
non-zero number (a missing `vtemp` defaults to `0`, which is falsy), keeping
the previous value when no TRV yields one. -/
def set_current_temperature (sensor : SensorState) (trvList : List DevRec)
    (prev : Option ℚ) : Option ℚ :=
  match sensor.temp with
  | .num q => some q
  | .bad _ => prev
  | .absent =>
    let trv_temps := trvList.filterMap fun trv =>
      match trv.state.vtemp with
      | .num q => if q = 0 then none else some q
      | _ => none
    if trv_temps.isEmpty then prev
    else some (trv_temps.sum / (trv_temps.length : ℚ))

/-- climate.py lines 154-161, `Device.__set_current_humidity`: parse
`sensor_state.rh` when present; on failure warn and keep the previous value. -/
def set_current_humidity (sensor : SensorState) (prev : Option ℚ) : Option ℚ :=
  match sensor.rh with
  | .absent => prev
  | .num q => some q
  | .bad _ => prev

/-- climate.py lines 163-170, `Device.__set_target_temperature`: parse
`state.temp` when present; on failure warn and keep the previous value. -/
def set_target_temperature (room : DevState) (prev : Option ℚ) : Option ℚ :=
  match room.temp with
  | .absent => prev
  | .num q => some q
  | .bad _ => prev

/-- climate.py lines 172-195, `Device.__set_hvac_state`: when `state.temp_pre`
is present and parses, decode mode and action from the flag word; otherwise
keep the previous mode and action. -/
def set_hvac_state (room : DevState) (prevMode : HVACMode)
    (prevAction : Option HVACAction) : HVACMode × Option HVACAction :=
  match room.temp_pre with
  | .num flags => (hvacModeOf flags, some (hvacActionOf flags))
  | _ => (prevMode, prevAction)

/-- climate.py lines 197-201, `Device.__update_state`: run the four setters in
sequence over the previous view. -/
def update_state (room : DevState) (sensor : SensorState) (trvList : List DevRec)
    (v : DerivedView) : DerivedView :=
  { current_temperature := set_current_temperature sensor trvList v.current_temperature,
    current_humidity := set_current_humidity sensor v.current_humidity,
    target_temperature := set_target_temperature room v.target_temperature,
    hvac_mode := (set_hvac_state room v.hvac_mode v.hvac_action).1,
    hvac_action := (set_hvac_state room v.hvac_mode v.hvac_action).2 }

/-- One coordinator update of a room entity: read the room's `state` and
`sensor_state` from the coordinator data, collect its TRVs and rebuild the
derived view. -/
def deviceUpdate (data : ℤ → DevRec) (minTrv maxTrv : ℕ) (minRoom wundaId : ℤ)
    (v : DerivedView) : DerivedView :=
  update_state (data wundaId).state (data wundaId).sensor_state
    (trvs data minTrv maxTrv minRoom wundaId) v

/-- A value in an outgoing command parameter mapping: a Python int, a float
(kept as a rational), or `None`. -/
inductive PVal where
  | pint : ℤ → PVal
  | prat : ℚ → PVal
  | pnull : PVal
deriving DecidableEq

/-- The parameter mapping `{cmd: 1, roomid, temp, locktt: 0, time: 0}` used by
`async_set_temperature`, the HEAT/OFF branches of `async_set_hvac_mode`, and
`async_set_preset_mode` (insertion order of the Python dict). -/
def tempParams (roomid : ℤ) (t : PVal) : List (String × PVal) :=
  [("cmd", PVal.pint 1), ("roomid", PVal.pint roomid), ("temp", t),
   ("locktt", PVal.pint 0), ("time", PVal.pint 0)]

/-- The parameter mapping `{cmd: 1, roomid, prog: None, locktt: 0, time: 0}`
used by the AUTO branch of `async_set_hvac_mode`. -/
def progParams (roomid : ℤ) : List (String × PVal) :=
  [("cmd", PVal.pint 1), ("roomid", PVal.pint roomid), ("prog", PVal.pnull),
   ("locktt", PVal.pint 0), ("time", PVal.pint 0)]

/-- An observable effect of a command handler: a `send_command` call with its
parameter mapping, or a `coordinator.async_request_refresh` call. -/
inductive Event where
  | send : List (String × PVal) → Event
  | refresh : Event
deriving DecidableEq

/-- The Python exceptions a command handler can raise before completing. -/
inductive PyErr where
  | typeError : PyErr
  | valueError : PyErr
  | nameError : PyErr
  | notImplementedError : PyErr
deriving DecidableEq

/-- Outcome of one command handler run: the effects performed, in order, and
the exception raised, if any. -/
structure OpResult where
  events : List Event
  error : Option PyErr
deriving DecidableEq

/-- The entity fields a command handler touches: its room id, the coordinator
data with the TRV range and room-id base, and the cached derived view. -/
structure Entity where
  wunda_id : ℤ
  data : ℤ → DevRec
  minTrv : ℕ
  maxTrv : ℕ
  minRoom : ℤ
  view : DerivedView

/-- An entity over the given coordinator data with the initial view. -/
def mkEntity (wundaId : ℤ) (data : ℤ → DevRec) : Entity :=
  { wunda_id := wundaId, data := data, minTrv := 0, maxTrv := 0, minRoom := 0,
    view := initView }

/-- climate.py lines 203-207, `Device._handle_coordinator_update`: rebuild the
derived view from the coordinator data. -/
def handle_coordinator_update (e : Entity) : Entity :=
  { e with view := deviceUpdate e.data e.minTrv e.maxTrv e.minRoom e.wunda_id e.view }

/-- climate.py lines 214-225, `Device.async_set_temperature`: send the command
and then request a refresh.  No entity attribute is assigned. -/
def async_set_temperature (e : Entity) (temperature : ℚ) : Entity × OpResult :=
  (e, { events := [Event.send (tempParams e.wunda_id (PVal.prat temperature)), Event.refresh],
        error := none })

/-- climate.py lines 227-259, `Device.async_set_hvac_mode`.  For HEAT the code
computes `math.ceil(self._attr_current_temperature) + 1`; when the current
temperature is `None`, `math.ceil(None)` raises `TypeError` before any send.
For an unsupported mode `NotImplementedError` is raised before any send. -/
def async_set_hvac_mode (e : Entity) (hvac_mode : HVACMode) : Entity × OpResult :=
  match hvac_mode with
  | .auto =>
    (e, { events := [Event.send (progParams e.wunda_id), Event.refresh], error := none })
  | .heat =>
    match e.view.current_temperature with
    | none => (e, { events := [], error := some PyErr.typeError })
    | some q =>
      (e, { events := [Event.send (tempParams e.wunda_id (PVal.pint (Rat.ceil q + 1))), Event.refresh],
            error := none })
  | .off =>
    (e, { events := [Event.send (tempParams e.wunda_id (PVal.prat 0)), Event.refresh],
          error := none })
  | _ => (e, { events := [], error := some PyErr.notImplementedError })

/-- climate.py lines 266-276: the preset temperature expression
`float(state.get(key)) or float(sensor.state(key2))`.  `float(None)` raises
`TypeError` and `float` of a malformed string raises `ValueError`; when the
first operand is `0.0` (falsy) the `or` evaluates `sensor.state(...)`, and
`sensor` is an undefined name, so `NameError` is raised — the sensor-state
fallback is unreachable. -/
def resolvePreset (v : FloatVal) : Except PyErr ℚ :=
  match v with
  | .num q => if q = 0 then Except.error PyErr.nameError else Except.ok q
  | .absent => Except.error PyErr.typeError
  | .bad _ => Except.error PyErr.valueError

/-- climate.py lines 261-295, `Device.async_set_preset_mode`: resolve the
preset temperature from `state.t_lo` / `state.t_norm` / `state.t_hi`, raise
`NotImplementedError` on any other preset name, then send the command and
request a refresh. -/
def async_set_preset_mode (e : Entity) (preset_mode : String) : Entity × OpResult :=
  let state := (e.data e.wunda_id).state
  let res : Except PyErr ℚ :=
    if preset_mode = "reduced" then resolvePreset state.t_lo
    else if preset_mode = "eco" then resolvePreset state.t_norm
    else if preset_mode = "comfort" then resolvePreset state.t_hi
    else Except.error PyErr.notImplementedError
  match res with
  | Except.ok t =>
    (e, { events := [Event.send (tempParams e.wunda_id (PVal.prat t)), Event.refresh],
          error := none })
  | Except.error err => (e, { events := [], error := some err })

/-- Spec §8 mode rules, stated over the flag word with the masks written the
way the spec writes them. -/
def specHvacMode (flags : ℤ) : HVACMode :=
  if Int.land flags 0x14 = 0x14 then HVACMode.off
  else if Int.land flags 0x90 = 0x10 then HVACMode.heat
  else HVACMode.auto

/-- Spec §8 action rules, stated over the flag word. -/
def specHvacAction (flags : ℤ) : HVACAction :=
  if Int.land flags 0xA0 = 0xA0 then HVACAction.preheating
  else if Int.land flags 0x20 ≠ 0 then HVACAction.heating
  else HVACAction.off

/-- The TRV `vtemp` values that parse to a non-zero number (spec §4.1). -/
def usableTrvTemps (trvList : List DevRec) : List ℚ :=
  trvList.filterMap fun trv =>
    match parseFloatVal trv.state.vtemp with
    | some q => if q = 0 then none else some q
    | none => none

/-- Claim C3's current-temperature resolution, as the claim states it: the
sensor's `temp` when present and numeric; otherwise the mean of the usable TRV
temperatures; otherwise the previous value. -/
def specCurrentTemperature (tempField : FloatVal) (trvList : List DevRec)
    (prev : Option ℚ) : Option ℚ :=
  match parseFloatVal tempField with
  | some q => some q
  | none =>
    let ts := usableTrvTemps trvList
    if ts.isEmpty then prev else some (ts.sum / (ts.length : ℚ))

/-- A TRV device record with the given `room_id` and `vtemp`. -/
def trvRec (rid : ℤ) (vt : ℚ) : DevRec :=
  { emptyDev with
      state := { emptyDev.state with room_id := IntVal.num rid, vtemp := FloatVal.num vt } }

/-- A room device record with the given `temp_pre`. -/
def roomRec (tpre : IntVal) : DevRec :=
  { emptyDev with state := { emptyDev.state with temp_pre := tpre } }

/-- Coordinator data with one room at id 7 whose `temp_pre` is `0x14`. -/
def dataC1 : ℤ → DevRec :=
  fun x => if x = 7 then roomRec (IntVal.num 0x14) else emptyDev

/-- Coordinator data with one room at id 7 whose `temp_pre` is `0xA0`. -/
def dataC2 : ℤ → DevRec :=
  fun x => if x = 7 then roomRec (IntVal.num 0xA0) else emptyDev

/-- Coordinator data with two TRVs (ids 2 and 3, `room_id` 1) reporting
`vtemp` 19 and 21, and no room sensor. -/
def dataC3w : ℤ → DevRec :=
  fun x => if x = 2 then trvRec 1 19 else if x = 3 then trvRec 1 21 else emptyDev

/-- Coordinator data where room 101 has a sensor with a malformed `temp` and
one associated TRV (id 2, `room_id` 1) reports `vtemp` 20. -/
def dataC3c : ℤ → DevRec :=
  fun x =>
    if x = 2 then trvRec 1 20
    else if x = 101 then
      { emptyDev with
          sensor_state := { emptyDev.sensor_state with temp := FloatVal.bad ("zz") } }
    else emptyDev

/-- A sensor state whose `rh` is the malformed string "n/a". -/
def sensorC4 : SensorState :=
  { emptyDev.sensor_state with rh := FloatVal.bad ("n/a") }

/-- A previous view holding humidity 40. -/
def viewC4 : DerivedView := { initView with current_humidity := some 40 }

/-- An entity for room 7 whose cached current temperature is 19.3. -/
def entC5 : Entity :=
  { mkEntity 7 (fun _ => emptyDev) with
      view := { initView with current_temperature := some (193/10) } }

/-- Coordinator data for room 9 with `state.t_norm = 18.5` and
`sensor_state.t_norm = 18`. -/
def dataC6 : ℤ → DevRec :=
  fun x =>
    if x = 9 then
      { emptyDev with
          state := { emptyDev.state with t_norm := FloatVal.num (37/2) },
          sensor_state := { emptyDev.sensor_state with t_norm := FloatVal.num 18 } }
    else emptyDev

/-- Coordinator data for room 9 with `state.t_norm = 0` (falsy) and a usable
`sensor_state.t_norm = 18` that the spec's fallback would use. -/
def dataC6bug : ℤ → DevRec :=
  fun x =>
    if x = 9 then
      { emptyDev with
          state := { emptyDev.state with t_norm := FloatVal.num 0 },
          sensor_state := { emptyDev.sensor_state with t_norm := FloatVal.num 18 } }
    else emptyDev

/-- Masking with a superset mask first does not change a conjunction mask
(natural-number case). -/
lemma nat_land_land_of_sub (m a b : ℕ) (h : b &&& a = b) : (m &&& a) &&& b = m &&& b := by
  apply Nat.eq_of_testBit_eq
  intro i
  have hb := congrArg (fun x => Nat.testBit x i) h
  simp only [Nat.testBit_land] at hb ⊢
  cases hm : Nat.testBit m i <;> cases hA : Nat.testBit a i <;> cases hB : Nat.testBit b i <;>
    simp_all

/-- Variant of `nat_land_land_of_sub` for the two's-complement branch. -/
lemma nat_ldiff_land_of_sub (m a b : ℕ) (h : b &&& a = b) :
    (Nat.ldiff a m) &&& b = Nat.ldiff b m := by
  apply Nat.eq_of_testBit_eq
  intro i
  have hb := congrArg (fun x => Nat.testBit x i) h
  simp only [Nat.testBit_land, Nat.testBit_ldiff] at hb ⊢
  cases hm : Nat.testBit m i <;> cases hA : Nat.testBit a i <;> cases hB : Nat.testBit b i <;>
    simp_all

/-- Pre-masking an integer with a mask `a` that contains `b` does not change
the result of masking with `b`. -/
lemma int_land_land_of_sub (f a b : ℤ) (ha : 0 ≤ a) (hb : 0 ≤ b) (h : Int.land b a = b) :
    Int.land (Int.land f a) b = Int.land f b := by
  obtain ⟨A, rfl⟩ := Int.eq_ofNat_of_zero_le ha
  obtain ⟨B, rfl⟩ := Int.eq_ofNat_of_zero_le hb
  have hN : B &&& A = B := by
    have h2 : Int.ofNat (B &&& A) = Int.ofNat B := h
    exact Int.ofNat.inj h2
  cases f with
  | ofNat m => exact congrArg Int.ofNat (nat_land_land_of_sub m A B hN)
  | negSucc m => exact congrArg Int.ofNat (nat_ldiff_land_of_sub m A B hN)

/-- C1: on a room-state update whose `temp_pre` parses to a non-negative
integer `flags`, the decoded hvac mode follows the spec rule: OFF when
`flags & 0x14 = 0x14`, otherwise HEAT when `flags & 0x90 = 0x10`,
otherwise AUTO. -/
theorem hvac_mode_decodes_to_spec (data : ℤ → DevRec) (minTrv maxTrv : ℕ)
    (minRoom wundaId : ℤ) (v : DerivedView) (flags : ℤ)
    (hpre : (data wundaId).state.temp_pre = IntVal.num flags) (_hnn : 0 ≤ flags) :
    (deviceUpdate data minTrv maxTrv minRoom wundaId v).hvac_mode = specHvacMode flags := by
  unfold deviceUpdate update_state set_hvac_state
  rw [hpre]
  rfl

/-- C1 witness: a room whose `temp_pre` is `0x14` decodes to mode OFF through
a full update. -/
theorem hvac_mode_decodes_to_spec_witness :
    (deviceUpdate dataC1 0 0 0 7 initView).hvac_mode = HVACMode.off := by
  have h := hvac_mode_decodes_to_spec dataC1 0 0 0 7 initView 0x14 (by decide) (by decide)
  rw [h]
  decide

/-- C2: on a room-state update whose `temp_pre` parses to a non-negative
integer `flags`, the decoded hvac action follows the spec rule: PREHEATING
when `flags & 0xA0 = 0xA0`, otherwise HEATING when `flags & 0x20 ≠ 0`,
otherwise OFF. -/
theorem hvac_action_decodes_to_spec (data : ℤ → DevRec) (minTrv maxTrv : ℕ)
    (minRoom wundaId : ℤ) (v : DerivedView) (flags : ℤ)
    (hpre : (data wundaId).state.temp_pre = IntVal.num flags) (_hnn : 0 ≤ flags) :
    (deviceUpdate data minTrv maxTrv minRoom wundaId v).hvac_action
      = some (specHvacAction flags) := by
  unfold deviceUpdate update_state set_hvac_state
  rw [hpre]
  rfl

/-- C2 witness: a room whose `temp_pre` is `0xA0` decodes to action
PREHEATING through a full update. -/
theorem hvac_action_decodes_to_spec_witness :
    (deviceUpdate dataC2 0 0 0 7 initView).hvac_action = some HVACAction.preheating := by
  have h := hvac_action_decodes_to_spec dataC2 0 0 0 7 initView 0xA0 (by decide) (by decide)
  rw [h]
  decide

/-- C9: the status decoder depends only on bits `0xB4` of the flag word: for
every integer, decoding `flags` and decoding `flags & 0xB4` give the same
(mode, action) pair, so bit `0x01` in particular never matters. -/
theorem decoder_depends_only_on_maskB4 (flags : ℤ) :
    (hvacModeOf flags, hvacActionOf flags)
      = (hvacModeOf (Int.land flags 0xB4), hvacActionOf (Int.land flags 0xB4)) := by
  have h14 := int_land_land_of_sub flags 0xB4 0x14 (by decide) (by decide) (by decide)
  have h90 := int_land_land_of_sub flags 0xB4 0x90 (by decide) (by decide) (by decide)
  have hA0 := int_land_land_of_sub flags 0xB4 0xA0 (by decide) (by decide) (by decide)
  have h20 := int_land_land_of_sub flags 0xB4 0x20 (by decide) (by decide) (by decide)
  simp only [hvacModeOf, hvacActionOf, h14, h90, hA0, h20]

/-- The TRV-temperature collection inside `set_current_temperature` is the
list of `vtemp` values that parse to a non-zero number. -/
lemma filterMap_vtemp_eq (trvList : List DevRec) :
    (trvList.filterMap fun trv =>
      match trv.state.vtemp with
      | FloatVal.num q => if q = 0 then none else some q
      | _ => none) = usableTrvTemps trvList := by
  unfold usableTrvTemps
  congr 1
  funext trv
  cases h : trv.state.vtemp <;> simp [parseFloatVal, h]

/-- C3 (amended): on an update, a sensor `temp` that is present and numeric
wins outright; a sensor `temp` that is present but non-numeric keeps the
previous value without consulting the TRVs; only when `temp` is absent does
the mean of the associated TRVs' usable `vtemp` values apply, the previous
value being kept when there is none. -/
theorem current_temperature_resolution_amended (data : ℤ → DevRec) (minTrv maxTrv : ℕ)
    (minRoom wundaId : ℤ) (v : DerivedView) :
    (∀ q, (data wundaId).sensor_state.temp = FloatVal.num q →
      (deviceUpdate data minTrv maxTrv minRoom wundaId v).current_temperature = some q)
    ∧ (∀ s, (data wundaId).sensor_state.temp = FloatVal.bad s →
      (deviceUpdate data minTrv maxTrv minRoom wundaId v).current_temperature
        = v.current_temperature)
    ∧ ((data wundaId).sensor_state.temp = FloatVal.absent →
      (deviceUpdate data minTrv maxTrv minRoom wundaId v).current_temperature
        = (if (usableTrvTemps (trvs data minTrv maxTrv minRoom wundaId)).isEmpty
           then v.current_temperature
           else some ((usableTrvTemps (trvs data minTrv maxTrv minRoom wundaId)).sum
             / ((usableTrvTemps (trvs data minTrv maxTrv minRoom wundaId)).length : ℚ)))) := by
  refine ⟨fun q hq => ?_, fun s hs => ?_, fun ha => ?_⟩
  · simp only [deviceUpdate, update_state, set_current_temperature, hq]
  · simp only [deviceUpdate, update_state, set_current_temperature, hs]
  · simp only [deviceUpdate, update_state, set_current_temperature, ha, filterMap_vtemp_eq]

/-- C3 witness: a room with no sensor and two associated TRVs reporting 19
and 21 ends with current temperature 20. -/
theorem current_temperature_resolution_witness :
    (deviceUpdate dataC3w 2 3 100 101 initView).current_temperature = some 20 := by
  have h := (current_temperature_resolution_amended dataC3w 2 3 100 101 initView).2.2 (by rfl)
  rw [h]
  have htrv : trvs dataC3w 2 3 100 101 = [trvRec 1 19, trvRec 1 21] := by rfl
  rw [htrv]
  norm_num [usableTrvTemps, trvRec, emptyDev, parseFloatVal,
    List.filterMap_cons, List.filterMap_nil, List.sum_cons, List.sum_nil]

/-- C3 counterexample: with a sensor `temp` that is present but non-numeric
and an associated TRV reporting 20, the claimed resolution yields the TRV mean
20, but the code keeps the previous value 5. -/
theorem current_temperature_claim_counterexample :
    specCurrentTemperature (dataC3c 101).sensor_state.temp (trvs dataC3c 2 2 100 101)
        (some 5) = some 20
    ∧ (deviceUpdate dataC3c 2 2 100 101
        { initView with current_temperature := some 5 }).current_temperature = some 5 := by
  constructor
  · have htrv : trvs dataC3c 2 2 100 101 = [trvRec 1 20] := by rfl
    rw [htrv]
    norm_num [specCurrentTemperature, dataC3c, emptyDev, parseFloatVal, usableTrvTemps, trvRec,
      List.filterMap_cons, List.filterMap_nil, List.sum_cons, List.sum_nil]
  · rfl

/-- C4: each attribute is decoded independently from its own source field; a
field that fails to parse leaves exactly that attribute at its previous value
(for the current temperature: a present but malformed sensor `temp`), and the
`rh` field has no effect on any attribute other than the humidity. -/
theorem attribute_decode_isolation (room : DevState) (sensor : SensorState)
    (trvList : List DevRec) (v : DerivedView) :
    (parseFloatVal sensor.rh = none →
      (update_state room sensor trvList v).current_humidity = v.current_humidity)
    ∧ (parseFloatVal room.temp = none →
      (update_state room sensor trvList v).target_temperature = v.target_temperature)
    ∧ (parseIntVal room.temp_pre = none →
      (update_state room sensor trvList v).hvac_mode = v.hvac_mode
      ∧ (update_state room sensor trvList v).hvac_action = v.hvac_action)
    ∧ (∀ s, sensor.temp = FloatVal.bad s →
      (update_state room sensor trvList v).current_temperature = v.current_temperature)
    ∧ (∀ rh0 : FloatVal,
      (update_state room { sensor with rh := rh0 } trvList v).current_temperature
        = (update_state room sensor trvList v).current_temperature
      ∧ (update_state room { sensor with rh := rh0 } trvList v).target_temperature
        = (update_state room sensor trvList v).target_temperature
      ∧ (update_state room { sensor with rh := rh0 } trvList v).hvac_mode
        = (update_state room sensor trvList v).hvac_mode
      ∧ (update_state room { sensor with rh := rh0 } trvList v).hvac_action
        = (update_state room sensor trvList v).hvac_action) := by
  refine ⟨fun hrh => ?_, fun ht => ?_, fun hp => ?_, fun s hs => ?_,
    fun rh0 => ⟨rfl, rfl, rfl, rfl⟩⟩
  · cases h : sensor.rh <;> simp_all [update_state, set_current_humidity, parseFloatVal]
  · cases h : room.temp <;> simp_all [update_state, set_target_temperature, parseFloatVal]
  · cases h : room.temp_pre <;> simp_all [update_state, set_hvac_state, parseIntVal]
  · simp [update_state, set_current_temperature, hs]

/-- C4 witness: the malformed humidity string "n/a" leaves the previous
humidity 40 in place. -/
theorem attribute_decode_isolation_witness :
    (update_state emptyDev.state sensorC4 [] viewC4).current_humidity = some 40 := by
  have h := (attribute_decode_isolation emptyDev.state sensorC4 [] viewC4).1 (by rfl)
  rw [h]
  rfl

/-- C5: setting mode HEAT with a known current temperature `q` submits
`{cmd: 1, roomid, temp: ceil(q) + 1, locktt: 0, time: 0}` then refreshes;
with an unknown current temperature it raises (TypeError from
`math.ceil(None)`) and submits nothing. -/
theorem set_hvac_mode_heat_requires_current_temperature (e : Entity) :
    (∀ q, e.view.current_temperature = some q →
      async_set_hvac_mode e HVACMode.heat
        = (e, { events := [Event.send (tempParams e.wunda_id (PVal.pint (Rat.ceil q + 1))),
                  Event.refresh],
                error := none }))
    ∧ (e.view.current_temperature = none →
      async_set_hvac_mode e HVACMode.heat
        = (e, { events := [], error := some PyErr.typeError })) := by
  constructor
  · intro q hq
    simp [async_set_hvac_mode, hq]
  · intro h0
    simp [async_set_hvac_mode, h0]

/-- C5 witness: with current temperature 19.3 the submitted target is 21. -/
theorem set_hvac_mode_heat_witness :
    (async_set_hvac_mode entC5 HVACMode.heat).2
      = { events := [Event.send (tempParams 7 (PVal.pint 21)), Event.refresh],
          error := none } := by
  have h := (set_hvac_mode_heat_requires_current_temperature entC5).1 (193/10) (by rfl)
  rw [h]
  norm_num [Rat.ceil, entC5, mkEntity]

/-- C6 (code-bug evidence): with `state.t_norm = 18.5` the eco preset submits
temp 18.5 and then refreshes, as claimed; but with `state.t_norm = 0` (not a
usable preset value) the code raises NameError — the sensor-state fallback
`float(sensor.state("t_norm"))` references the undefined name `sensor` — so
the usable `sensor_state.t_norm = 18` is never consulted. -/
theorem set_preset_mode_eco_eval :
    (async_set_preset_mode (mkEntity 9 dataC6) ("eco")).2
      = { events := [Event.send (tempParams 9 (PVal.prat (37/2))), Event.refresh],
          error := none }
    ∧ (async_set_preset_mode (mkEntity 9 dataC6bug) ("eco")).2
      = { events := [], error := some PyErr.nameError } := by
  have h1 : ¬(("eco" : String) = ("reduced")) := by decide
  constructor
  · norm_num [async_set_preset_mode, mkEntity, dataC6, resolvePreset, emptyDev, h1]
  · norm_num [async_set_preset_mode, mkEntity, dataC6bug, resolvePreset, emptyDev, h1]

/-- C7: an HVAC mode other than AUTO, HEAT, OFF raises NotImplementedError
and submits nothing, and a preset name outside reduced/eco/comfort likewise
raises NotImplementedError and submits nothing. -/
theorem unsupported_mode_and_preset_rejected (e : Entity) :
    (∀ m, m ≠ HVACMode.auto → m ≠ HVACMode.heat → m ≠ HVACMode.off →
      async_set_hvac_mode e m
        = (e, { events := [], error := some PyErr.notImplementedError }))
    ∧ (∀ p : String, p ≠ ("reduced") → p ≠ ("eco") → p ≠ ("comfort") →
      async_set_preset_mode e p
        = (e, { events := [], error := some PyErr.notImplementedError })) := by
  constructor
  · intro m h1 h2 h3
    cases m <;> simp_all [async_set_hvac_mode]
  · intro p h1 h2 h3
    simp [async_set_preset_mode, h1, h2, h3]

/-- C7 witness: mode COOL and preset name "boost" are both rejected without
any command being sent. -/
theorem unsupported_mode_and_preset_rejected_witness :
    (async_set_hvac_mode (mkEntity 3 (fun _ => emptyDev)) HVACMode.cool).2
      = { events := [], error := some PyErr.notImplementedError }
    ∧ (async_set_preset_mode (mkEntity 3 (fun _ => emptyDev)) ("boost")).2
      = { events := [], error := some PyErr.notImplementedError } := by
  constructor
  · have h := (unsupported_mode_and_preset_rejected (mkEntity 3 (fun _ => emptyDev))).1
      HVACMode.cool (by decide) (by decide) (by decide)
    rw [h]
  · have h := (unsupported_mode_and_preset_rejected (mkEntity 3 (fun _ => emptyDev))).2
      ("boost") (by decide) (by decide) (by decide)
    rw [h]

/-- C8: every command handler that completes without raising performs exactly
one send followed by one refresh, in that order. -/
theorem commands_refresh_after_send (e : Entity) :
    (∀ t : ℚ, (async_set_temperature e t).2.error = none →
      ∃ p, (async_set_temperature e t).2.events = [Event.send p, Event.refresh])
    ∧ (∀ m, (async_set_hvac_mode e m).2.error = none →
      ∃ p, (async_set_hvac_mode e m).2.events = [Event.send p, Event.refresh])
    ∧ (∀ s : String, (async_set_preset_mode e s).2.error = none →
      ∃ p, (async_set_preset_mode e s).2.events = [Event.send p, Event.refresh]) := by
  refine ⟨fun t _ => ⟨_, rfl⟩, fun m hm => ?_, fun s hs => ?_⟩
  · cases m
    case heat =>
      cases hct : e.view.current_temperature with
      | none => simp [async_set_hvac_mode, hct] at hm
      | some q =>
        refine ⟨tempParams e.wunda_id (PVal.pint (Rat.ceil q + 1)), ?_⟩
        simp [async_set_hvac_mode, hct]
    case auto => exact ⟨_, rfl⟩
    case off => exact ⟨_, rfl⟩
    all_goals simp [async_set_hvac_mode] at hm
  · revert hs
    simp only [async_set_preset_mode]
    split
    · intro _
      exact ⟨_, rfl⟩
    · intro hs
      simp at hs

/-- C8 witness: a successful set-temperature run is exactly a send followed
by a refresh. -/
theorem commands_refresh_after_send_witness :
    ∃ p, (async_set_temperature (mkEntity 3 (fun _ => emptyDev)) 20).2.events
      = [Event.send p, Event.refresh] := by
  exact (commands_refresh_after_send (mkEntity 3 (fun _ => emptyDev))).1 20 (by rfl)

/-- C10: no command handler changes the cached derived view; in this
embedding the only operation that writes the view is
`handle_coordinator_update`. -/
theorem commands_preserve_derived_view (e : Entity) (t : ℚ) (m : HVACMode) (p : String) :
    (async_set_temperature e t).1.view = e.view
    ∧ (async_set_hvac_mode e m).1.view = e.view
    ∧ (async_set_preset_mode e p).1.view = e.view := by
  refine ⟨rfl, ?_, ?_⟩
  · cases m <;> try rfl
    cases hct : e.view.current_temperature <;> simp [async_set_hvac_mode, hct]
  · simp only [async_set_preset_mode]
    split <;> rfl

end Wundasmart
